import Mathlib

/-!
Verification of the data-normalization and metrics pipeline of `src/app.py`
(steel-rebar shipment dashboard).

The embedding models a pandas DataFrame as a `RawTable`: a list of header
strings plus rows of cells.  A `Cell` is either `blank` (an empty cell, which
pandas reads as NaN), `str s` (a cell whose text does not parse as a
datetime), or `date t` (a cell holding a datetime, or text that the tolerant
parser `pd.to_datetime` accepts; `t` counts minutes since the epoch, so one
calendar day is 1440).  Timestamps are minutes so that within-day times are
representable; `pd.Timestamp.now()` becomes an explicit `now : Int` argument.
-/

inductive Cell where
  | blank : Cell
  | str (s : String) : Cell
  | date (t : Int) : Cell
  deriving DecidableEq

/-- Models `astype(str)` on a cell: NaN renders as the text `nan`; a datetime
cell renders as a timestamp text (which is never empty, never `nan`, and
contains hyphens around the digits, so it fails numeric parsing, as the real
rendering `YYYY-MM-DD HH:MM:SS` does). -/
def cellToStr : Cell → String
  | Cell.blank => "nan"
  | Cell.str s => s
  | Cell.date t => "date-" ++ toString t ++ "-ts"

/-- Models `pd.to_datetime(x, errors="coerce")` on one cell: a datetime cell
(or datetime-parseable text, represented by `Cell.date`) yields its timestamp,
everything else yields NaT (`none`). -/
def toDatetime : Cell → Option Int
  | Cell.date t => some t
  | _ => none

/-- Models Python `str.strip()` on the character list of a string. -/
def trimChars (cs : List Char) : List Char :=
  ((cs.dropWhile Char.isWhitespace).reverse.dropWhile Char.isWhitespace).reverse

/-- Models Python `str.strip()`. -/
def trimStr (s : String) : String :=
  String.mk (trimChars s.data)

/-- Models the categorical normalization used by both loaders, e.g.
`astype(str).str.strip().replace({"": d, "nan": d, "None": d, None: d})`
(`src/app.py` lines 271 to 275 and 310 to 313). -/
def normCat (dflt : String) (c : Cell) : String :=
  let s := trimStr (cellToStr c)
  if s = "" ∨ s = "nan" ∨ s = "None" then dflt else s

/-- Models the regex replace `[^\d.-] -> ""` of `safe_convert_to_numeric`
(`src/app.py` line 246): keep only digits, dot and minus. -/
def clean_numeric_chars (cs : List Char) : List Char :=
  cs.filter (fun c => c.isDigit || c = '.' || c = '-')

/-- Splits a character list at every dot, mirroring how a float literal is
decomposed into integer part and fractional part. -/
def splitOnDot : List Char → List (List Char)
  | [] => [[]]
  | c :: rest =>
    let r := splitOnDot rest
    if c = '.' then [] :: r
    else
      match r with
      | [] => [[c]]
      | h :: t => (c :: h) :: t

def allDigits (cs : List Char) : Bool :=
  cs.all Char.isDigit

def digitsVal (cs : List Char) : Nat :=
  cs.foldl (fun n c => 10 * n + (c.toNat - 48)) 0

def signedInt (neg : Bool) (n : Nat) : Int :=
  if neg then -(n : Int) else (n : Int)

/-- Models `pd.to_numeric(s, errors="coerce")` followed by `astype(int)` on a
string over the alphabet digits, dot, minus: an optional leading minus, then
digits with at most one dot and at least one digit in total.  The fractional
part is dropped, matching the C-style truncation toward zero of
`astype(int)`.  Any other shape is a parse failure (`none`, i.e. NaN). -/
def parse_float_trunc (cs : List Char) : Option Int :=
  let p : Bool × List Char :=
    match cs with
    | '-' :: rest => (true, rest)
    | _ => (false, cs)
  let neg := p.1
  let body := p.2
  if body.contains '-' then none
  else
    match splitOnDot body with
    | [ip] => if ip ≠ [] ∧ allDigits ip then some (signedInt neg (digitsVal ip)) else none
    | [ip, fp] =>
      if allDigits ip ∧ allDigits fp ∧ ¬(ip = [] ∧ fp = []) then
        some (signedInt neg (digitsVal ip))
      else none
    | _ => none

/-- Models `safe_convert_to_numeric` of `src/app.py` lines 244 to 248 applied
to one cell, composed with the later `astype(int)`: render the cell as text,
strip every character that is not a digit, dot or minus, replace an empty
result by `0` (the literals `nan` and `None` cannot survive the character
filter), parse, and fall back to the default `0` on parse failure. -/
def safe_convert_to_numeric (c : Cell) : Int :=
  let cleaned := clean_numeric_chars (cellToStr c).data
  let cleaned2 := if cleaned = [] then ['0'] else cleaned
  match parse_float_trunc cleaned2 with
  | some n => n
  | none => 0

structure RawTable where
  headers : List String
  rows : List (List Cell)
  deriving DecidableEq

/-- Reads the cell of the column labelled `name` (first matching header, as a
pandas label lookup); absent labels and short rows read as blank. -/
def getCell (headers : List String) (row : List Cell) (name : String) : Cell :=
  match headers.findIdx? (fun h => decide (h = name)) with
  | some i => row.getD i Cell.blank
  | none => Cell.blank

/-- `AppConfig.BACKUP_COL_MAPPING` of `src/app.py` lines 30 to 35, in dict
insertion order. -/
def BACKUP_COL_MAPPING : List (String × List String) :=
  [("标段名称", ["项目标段", "工程名称", "标段"]),
   ("物资名称", ["材料名称", "品名", "名称"]),
   ("需求量", ["需求吨位", "计划量", "数量"]),
   ("下单时间", ["创建时间", "日期", "录入时间"])]

/-- One pass of the alias loop of `load_data` (`src/app.py` lines 259 to 263):
scan the alias list in order and rename the first alias found, provided the
canonical name is not already a column; renaming keeps column positions. -/
def renameOne (headers : List String) (std : String) : List String → List String
  | [] => headers
  | alt :: rest =>
    if alt ∈ headers ∧ ¬ std ∈ headers then
      headers.map (fun h => if h = alt then std else h)
    else renameOne headers std rest

def renameHeaders (headers : List String) : List String :=
  BACKUP_COL_MAPPING.foldl (fun hs p => renameOne hs p.1 p.2) headers

def REQUIRED_COLS : List String :=
  ["标段名称", "物资名称", "下单时间", "需求量"]

/-- `missing_cols` of `src/app.py` line 266. -/
def missing_required (headers : List String) : List String :=
  REQUIRED_COLS.filter (fun c => decide (¬ c ∈ headers))

/-- A canonical order record: one row retained by `load_data`, with the
columns the pipeline writes.  Field to column: `segment_name` is `标段名称`
(kept raw because `load_data` never transforms it), `material_name` is
`物资名称`, `project_department` is `项目部名称`, `order_time` is `下单时间`,
`demand_quantity` is `需求量`, `shipped_quantity` is `已发量`,
`remaining_quantity` is `剩余量`, `overdue_days` is `超期天数`. -/
structure Record where
  segment_name : Cell
  material_name : String
  project_department : String
  order_time : Int
  demand_quantity : Int
  shipped_quantity : Int
  remaining_quantity : Int
  overdue_days : Int
  deriving DecidableEq

/-- The parsed planned-arrival time of a row: present only when the column
`计划进场时间` exists and the cell parses (`src/app.py` lines 284 to 285). -/
def plannedTime (headers : List String) (row : List Cell) : Option Int :=
  if "计划进场时间" ∈ headers then toDatetime (getCell headers row "计划进场时间")
  else none

/-- `超期天数` of `src/app.py` lines 284 to 288: when a planned time parses,
`(pd.Timestamp.now() - planned).dt.days.clip(lower=0)`, where `.dt.days` is
floor division of the wall-clock difference by one day; otherwise the
`fillna(0)` and the `else` branch both give `0`. -/
def overdue_days (headers : List String) (now : Int) (row : List Cell) : Int :=
  match plannedTime headers row with
  | some planned => max (Int.fdiv (now - planned) 1440) 0
  | none => 0

/-- Per-row normalization of `load_data` (`src/app.py` lines 271 to 288).
The source applies the column operations to the whole frame and drops the
rows whose `下单时间` is NaT in between; since every operation is per-row,
this is the same as processing each row and dropping it when its order date
fails to parse.  `项目部名称` is read from positional column 17
(`df.iloc[:, 17]`). -/
def processRow (headers : List String) (now : Int) (row : List Cell) : Option Record :=
  match toDatetime (getCell headers row "下单时间") with
  | none => none
  | some ot =>
    some { segment_name := getCell headers row "标段名称"
           material_name := normCat "未指定物资" (getCell headers row "物资名称")
           project_department := normCat "未指定项目部" (row.getD 17 Cell.blank)
           order_time := ot
           demand_quantity := safe_convert_to_numeric (getCell headers row "需求量")
           shipped_quantity := safe_convert_to_numeric (getCell headers row "已发量")
           remaining_quantity := max (safe_convert_to_numeric (getCell headers row "需求量")
                          - safe_convert_to_numeric (getCell headers row "已发量")) 0
           overdue_days := overdue_days headers now row }

/-- The ways `load_data` ends without records: the explicit required-column
check (`缺少必要列`, returns an empty frame), and the two Python exceptions
that the outer handler turns into an empty frame: `df.iloc[:, 17]` raises
IndexError when the frame has fewer than 18 columns, and
`safe_convert_to_numeric(df.get("已发量", 0))` raises AttributeError when the
column `已发量` is absent, because `df.get` then returns the scalar `0`,
which has no `.astype`. -/
inductive LoadError where
  | schemaError (missing : List String) : LoadError
  | indexError : LoadError
  | attributeError : LoadError
  deriving DecidableEq

/-- `load_data` of `src/app.py` lines 243 to 293 (file discovery and the
Excel engine are out of scope; the raw table is the input). -/
def load_data (now : Int) (t : RawTable) : Except LoadError (List Record) :=
  let headers := renameHeaders t.headers
  match missing_required headers with
  | m :: ms => Except.error (LoadError.schemaError (m :: ms))
  | [] =>
    if headers.length < 18 then Except.error LoadError.indexError
    else if "已发量" ∈ headers then
      Except.ok (t.rows.filterMap (processRow headers now))
    else Except.error LoadError.attributeError

/-- The five summary numbers of `display_metrics_cards` (`src/app.py` lines
498 to 502): `total` is 总需求量, `shipped` is 已发货量, `pending` is
待发货量, `overdue` is the count of rows with `超期天数 > 0`, `max_overdue`
is 最大超期. -/
structure Metrics where
  total : Int
  shipped : Int
  pending : Int
  overdue : Nat
  max_overdue : Int
  deriving DecidableEq

/-- Models `Series.max()`: the maximum of a nonempty series, `none` (NaN) on
an empty one. -/
def seriesMax : List Int → Option Int
  | [] => none
  | x :: xs =>
    match seriesMax xs with
    | none => some x
    | some m => some (max x m)

/-- The aggregation of `display_metrics_cards` (`src/app.py` lines 498 to
502): column sums, the count of overdue rows, and
`filtered_df["超期天数"].max() if overdue > 0 else 0`.  (The enclosing
function returns early on an empty frame before rendering; the aggregation
itself is total and is what the claims call `summarize`.) -/
def display_metrics_cards (rs : List Record) : Metrics :=
  let overdue := (rs.filter (fun r => decide (r.overdue_days > 0))).length
  { total := (rs.map Record.demand_quantity).sum
    shipped := (rs.map Record.shipped_quantity).sum
    pending := (rs.map Record.remaining_quantity).sum
    overdue := overdue
    max_overdue :=
      if overdue > 0 then (seriesMax (rs.map Record.overdue_days)).getD 0 else 0 }

/-- Written from the words of the specification, for comparison: the maximum
of `overdue_days` over the records with `overdue_days > 0`, and `0` when no
such record exists (`foldr max 0` of a list of positive numbers is its
maximum, and is `0` on the empty list). -/
def maxPosOverdue (rs : List Record) : Int :=
  ((rs.filter (fun r => decide (0 < r.overdue_days))).map Record.overdue_days).foldr max 0

/-- Written from the words of the specification, for comparison with
`overdue_days`: whole days between now truncated to the date and the planned
arrival truncated to the date, floored at zero (calendar-day truncation). -/
def overdue_days_calendar_spec (now planned : Int) : Int :=
  max (Int.fdiv now 1440 - Int.fdiv planned 1440) 0

/-- Models `str()` of a nullable timestamp, used inside the record
fingerprint: NaT renders as the text `NaT`. -/
def tsToStr : Option Int → String
  | some t => cellToStr (Cell.date t)
  | none => "NaT"

/-- `generate_record_id` of `src/app.py` lines 185 to 193: the md5 hex digest
of the pipe-joined natural-key fields 钢厂, 物资名称, 规格型号, 交货时间,
项目部.  The md5 digest is a fixed deterministic function of exactly this
joined string, so the model uses the joined string itself as the
fingerprint. -/
def generate_record_id (steel_mill material : String) (spec_model : Cell)
    (delivery : Option Int) (department : String) : String :=
  String.intercalate "|" [steel_mill, material, cellToStr spec_model, tsToStr delivery, department]

/-- Models `pd.to_numeric(x, errors="coerce").fillna(0)` on one raw cell (no
character cleaning here, unlike `safe_convert_to_numeric`). -/
def to_numeric_coerce (c : Cell) : Int :=
  match parse_float_trunc (cellToStr c).data with
  | some n => n
  | none => 0

/-- One row of the logistics sheet after `load_logistics_data`.  Field to
column: `steel_mill` is 钢厂, `material_name` is 物资名称, `spec_model` is
规格型号 (kept raw), `quantity` is 数量, `delivery_time` is 交货时间,
`department` is 项目部, `contact` is 联系方式, plus the derived
`record_id`.  The columns 单位, 收货地址, 联系人 and 到货状态 are only
filled in when absent and otherwise passed through raw, so they are not
modelled. -/
structure LRecord where
  steel_mill : String
  material_name : String
  spec_model : Cell
  quantity : Int
  delivery_time : Option Int
  department : String
  contact : String
  record_id : String
  deriving DecidableEq

/-- The missing-column fill of `load_logistics_data` (`src/app.py` lines 306
to 308): an absent column is created holding `""` (`0` for 数量, rendered
here as the cell text `0`, which converts to the same number). -/
def getCellFill (headers : List String) (row : List Cell) (name : String) : Cell :=
  if name ∈ headers then getCell headers row name
  else if name = "数量" then Cell.str "0"
  else Cell.str ""

/-- The 项目部 normalization of `load_logistics_data` (`src/app.py` lines 314
to 315): `astype(str).str.strip().replace({"未指定项目部": "", "nan": "",
"None": "", None: ""})` — the blank-like values and the default label itself
all become the empty string (the reverse direction of `normCat`). -/
def norm_dept_logistics (c : Cell) : String :=
  let s := trimStr (cellToStr c)
  if s = "未指定项目部" ∨ s = "nan" ∨ s = "None" then "" else s

/-- `load_logistics_data` of `src/app.py` lines 297 to 325, per row: fill
missing columns, normalize 物资名称 and 钢厂 to default labels, normalize
项目部 to the empty string for blank-like cells, coerce 数量 and 交货时间,
and compute the record fingerprint from the already-normalized fields. -/
def load_logistics_data (t : RawTable) : List LRecord :=
  t.rows.map (fun row =>
    let steel_mill := normCat "未指定钢厂" (getCellFill t.headers row "钢厂")
    let material_name := normCat "未指定物资" (getCellFill t.headers row "物资名称")
    let department := norm_dept_logistics (getCellFill t.headers row "项目部")
    let spec_model := getCellFill t.headers row "规格型号"
    let delivery_time := toDatetime (getCellFill t.headers row "交货时间")
    { steel_mill := steel_mill
      material_name := material_name
      spec_model := spec_model
      quantity := to_numeric_coerce (getCellFill t.headers row "数量")
      delivery_time := delivery_time
      department := department
      contact := cellToStr (getCellFill t.headers row "联系方式")
      record_id := generate_record_id steel_mill material_name spec_model delivery_time department })

/-- One row of the status overlay file `logistics_status.csv`: the record
fingerprint, the status 到货状态 (`arrival_status`), and `update_time`. -/
structure StatusEntry where
  record_id : String
  arrival_status : String
  update_time : String
  deriving DecidableEq

/-- The lookup `status_df.loc[status_df["record_id"] == record_id,
"到货状态"]` followed by `.iloc[0]`: the status of the first matching row. -/
def lookupStatus (store : List StatusEntry) (rid : String) : Option String :=
  match store.find? (fun e => decide (e.record_id = rid)) with
  | some e => some e.arrival_status
  | none => none

/-- `send_notification` of `src/app.py` lines 378 to 382: set exactly when
the new status is 未到货 and the stored status is absent or different from
未到货. -/
def notify_flag (store : List StatusEntry) (rid new_status : String) : Bool :=
  if new_status = "未到货" then
    match lookupStatus store rid with
    | none => true
    | some s => decide (s ≠ "未到货")
  else false

/-- The overlay write of `update_logistics_status` (`src/app.py` lines 384
to 397): if the fingerprint exists, remove it when the (already stripped)
status equals a single space, otherwise update every matching row; if it does
not exist, append a row unless the status equals a single space. -/
def apply_status_write (store : List StatusEntry) (rid new_status today : String) :
    List StatusEntry :=
  if store.any (fun e => decide (e.record_id = rid)) then
    if new_status = " " then store.filter (fun e => decide (e.record_id ≠ rid))
    else store.map (fun e =>
      if e.record_id = rid then { e with arrival_status := new_status, update_time := today }
      else e)
  else if new_status ≠ " " then
    store ++ [{ record_id := rid, arrival_status := new_status, update_time := today }]
  else store

/-- The observable outcome of one `update_logistics_status` call: the overlay
as persisted, whether the feishu notification was attempted, whether the call
returned True, and whether the success toast was shown. -/
structure UpdateOutcome where
  store : List StatusEntry
  notified : Bool
  returned : Bool
  toast : Bool
  deriving DecidableEq

/-- `update_logistics_status` of `src/app.py` lines 371 to 411.  `new_status0`
is the raw argument (None allowed); it is stringified and stripped first.
`saveOk` models whether `save_logistics_status` succeeded, `hasOriginalRow`
whether the caller passed `original_row`, and `notifyOk` whether
`send_feishu_notification` delivered.  The notification is attempted after a
successful save when the precomputed flag is set and a row was supplied;
delivery success only controls the toast, never the return value or the
store. -/
def update_logistics_status (store : List StatusEntry) (rid : String)
    (new_status0 : Option String) (today : String)
    (saveOk hasOriginalRow notifyOk : Bool) : UpdateOutcome :=
  let new_status := trimStr (new_status0.getD "")
  let send_notification := notify_flag store rid new_status
  let store2 := apply_status_write store rid new_status today
  if saveOk then
    { store := store2
      notified := send_notification && hasOriginalRow
      returned := true
      toast := send_notification && hasOriginalRow && notifyOk }
  else
    { store := store, notified := false, returned := false, toast := false }

/-- Decidable equality for `Except`, used to evaluate `load_data` results on
concrete tables. -/
instance {e a : Type} [DecidableEq e] [DecidableEq a] : DecidableEq (Except e a) := fun x y =>
  match x, y with
  | Except.error u, Except.error v =>
    if h : u = v then isTrue (by rw [h]) else isFalse (fun hx => by cases hx; exact h rfl)
  | Except.ok u, Except.ok v =>
    if h : u = v then isTrue (by rw [h]) else isFalse (fun hx => by cases hx; exact h rfl)
  | Except.error _, Except.ok _ => isFalse (fun hx => by cases hx)
  | Except.ok _, Except.error _ => isFalse (fun hx => by cases hx)

/-- A 19-column header line shaped like the production spreadsheet: the four
required columns, 已发量, 计划进场时间, filler columns, and 项目部名称 at
positional index 17 (the column `df.iloc[:, 17]` reads). -/
def stdHeaders : List String :=
  ["标段名称", "物资名称", "下单时间", "需求量", "已发量", "计划进场时间",
   "备注06", "备注07", "备注08", "备注09", "备注10", "备注11", "备注12",
   "备注13", "备注14", "备注15", "备注16", "项目部名称", "备注18"]

/-- A two-row table: a clean row, and a row whose order date does not parse. -/
def wtab : RawTable :=
  { headers := stdHeaders
    rows :=
      [[Cell.str "宜宾标段", Cell.str "HRB400钢筋", Cell.date 1000000,
        Cell.str "100", Cell.str "40", Cell.date 985600,
        Cell.blank, Cell.blank, Cell.blank, Cell.blank, Cell.blank, Cell.blank,
        Cell.blank, Cell.blank, Cell.blank, Cell.blank, Cell.blank,
        Cell.str "一分部", Cell.blank],
       [Cell.str "宜宾标段", Cell.str "盘螺", Cell.str "not-a-date",
        Cell.str "50", Cell.str "50", Cell.date 1000000,
        Cell.blank, Cell.blank, Cell.blank, Cell.blank, Cell.blank, Cell.blank,
        Cell.blank, Cell.blank, Cell.blank, Cell.blank, Cell.blank,
        Cell.str "二分部", Cell.blank]] }

/-- The single record `load_data 1000000 wtab` retains (the second row is
dropped): demand 100, shipped 40, remaining 60, planned arrival 10 days
before now, so 10 overdue days. -/
def wrec : Record :=
  { segment_name := Cell.str "宜宾标段"
    material_name := "HRB400钢筋"
    project_department := "一分部"
    order_time := 1000000
    demand_quantity := 100
    shipped_quantity := 40
    remaining_quantity := 60
    overdue_days := 10 }


/-- A one-row table whose planned arrival is day 0 at 23:00 (minute 1380);
evaluated at now = day 1 at 01:00 (minute 1500), the wall-clock difference is
two hours, so the code computes 0 overdue days, while calendar-day truncation
computes 1. -/
def ctab : RawTable :=
  { headers := stdHeaders
    rows :=
      [[Cell.str "A标段", Cell.str "螺纹钢", Cell.date 0,
        Cell.str "10", Cell.str "0", Cell.date 1380,
        Cell.blank, Cell.blank, Cell.blank, Cell.blank, Cell.blank, Cell.blank,
        Cell.blank, Cell.blank, Cell.blank, Cell.blank, Cell.blank,
        Cell.str "一分部", Cell.blank]] }

def crec : Record :=
  { segment_name := Cell.str "A标段"
    material_name := "螺纹钢"
    project_department := "一分部"
    order_time := 0
    demand_quantity := 10
    shipped_quantity := 0
    remaining_quantity := 10
    overdue_days := 0 }


/-- A one-row table whose raw demand is the text `-5`. -/
def c3tab : RawTable :=
  { headers := stdHeaders
    rows :=
      [[Cell.str "B标段", Cell.str "圆钢", Cell.date 2000,
        Cell.str "-5", Cell.str "0", Cell.blank,
        Cell.blank, Cell.blank, Cell.blank, Cell.blank, Cell.blank, Cell.blank,
        Cell.blank, Cell.blank, Cell.blank, Cell.blank, Cell.blank,
        Cell.str "三分部", Cell.blank]] }

def c3rec : Record :=
  { segment_name := Cell.str "B标段"
    material_name := "圆钢"
    project_department := "三分部"
    order_time := 2000
    demand_quantity := -5
    shipped_quantity := 0
    remaining_quantity := 0
    overdue_days := 0 }


/-- A table whose headers use only aliases for two required columns and lack
需求量 entirely: after reconciliation 需求量 is still missing. -/
def c4tab : RawTable :=
  { headers := ["项目标段", "物资名称", "创建时间"], rows := [] }


/-- An 18-column table with the four required columns but no 已发量 column. -/
def c10tab : RawTable :=
  { headers :=
      ["标段名称", "物资名称", "下单时间", "需求量",
       "备注04", "备注05", "备注06", "备注07", "备注08", "备注09", "备注10",
       "备注11", "备注12", "备注13", "备注14", "备注15", "备注16", "项目部名称"]
    rows :=
      [[Cell.str "C标段", Cell.str "线材", Cell.date 0, Cell.str "20",
        Cell.blank, Cell.blank, Cell.blank, Cell.blank, Cell.blank, Cell.blank,
        Cell.blank, Cell.blank, Cell.blank, Cell.blank, Cell.blank, Cell.blank,
        Cell.blank, Cell.str "四分部"]] }


/-- A logistics sheet with a blank 项目部 cell. -/
def c9tab : RawTable :=
  { headers := ["钢厂", "物资名称", "项目部"]
    rows := [[Cell.str "X钢厂", Cell.str "盘螺", Cell.blank]] }

def c9rec : LRecord :=
  { steel_mill := "X钢厂"
    material_name := "盘螺"
    spec_model := Cell.str ""
    quantity := 0
    delivery_time := none
    department := ""
    contact := ""
    record_id := "X钢厂|盘螺||NaT|" }


/-- An overlay holding one fingerprint with status 已到货. -/
def c7store : List StatusEntry :=
  [{ record_id := "rid1", arrival_status := "已到货", update_time := "2026-10-01" }]


/-- A successful `load_data` returns exactly the rows that survive per-row
processing, in order. -/
theorem load_data_ok_elim {now : Int} {t : RawTable} {rs : List Record}
    (h : load_data now t = Except.ok rs) :
    rs = t.rows.filterMap (processRow (renameHeaders t.headers) now) := by
  simp only [load_data] at h
  cases hm : missing_required (renameHeaders t.headers) with
  | cons m ms =>
    rw [hm] at h
    cases h
  | nil =>
    rw [hm] at h
    by_cases h18 : (renameHeaders t.headers).length < 18
    · rw [if_pos h18] at h
      cases h
    · rw [if_neg h18] at h
      by_cases hsp : "已发量" ∈ renameHeaders t.headers
      · rw [if_pos hsp] at h
        exact (Except.ok.inj h).symm
      · rw [if_neg hsp] at h
        cases h

/-- Every record of a successful load comes from some source row. -/
theorem load_data_mem (now : Int) (t : RawTable) (rs : List Record) (r : Record)
    (h : load_data now t = Except.ok rs) (hr : r ∈ rs) :
    ∃ row ∈ t.rows, processRow (renameHeaders t.headers) now row = some r := by
  rw [load_data_ok_elim h] at hr
  exact List.mem_filterMap.mp hr

/-- A row with an unparseable order date is dropped. -/
theorem processRow_eq_none (headers : List String) (now : Int) (row : List Cell)
    (h : toDatetime (getCell headers row "下单时间") = none) :
    processRow headers now row = none := by
  unfold processRow
  rw [h]

/-- A row with a parseable order date is retained. -/
theorem processRow_isSome (headers : List String) (now : Int) (row : List Cell) (ot : Int)
    (h : toDatetime (getCell headers row "下单时间") = some ot) :
    ∃ r, processRow headers now row = some r := by
  unfold processRow
  rw [h]
  exact ⟨_, rfl⟩

/-- A retained record is exactly the normalized image of its source row. -/
theorem processRow_char (headers : List String) (now : Int) (row : List Cell) (r : Record)
    (h : processRow headers now row = some r) :
    ∃ ot, toDatetime (getCell headers row "下单时间") = some ot ∧
      r = { segment_name := getCell headers row "标段名称"
            material_name := normCat "未指定物资" (getCell headers row "物资名称")
            project_department := normCat "未指定项目部" (row.getD 17 Cell.blank)
            order_time := ot
            demand_quantity := safe_convert_to_numeric (getCell headers row "需求量")
            shipped_quantity := safe_convert_to_numeric (getCell headers row "已发量")
            remaining_quantity := max (safe_convert_to_numeric (getCell headers row "需求量")
              - safe_convert_to_numeric (getCell headers row "已发量")) 0
            overdue_days := overdue_days headers now row } := by
  unfold processRow at h
  cases htd : toDatetime (getCell headers row "下单时间") with
  | none =>
    rw [htd] at h
    cases h
  | some ot =>
    rw [htd] at h
    exact ⟨ot, rfl, (Option.some.inj h).symm⟩

/-- Whole days of a wall-clock difference below one day floor to a
non-positive number. -/
theorem fdiv_day_nonpos {x : Int} (h : x < 1440) : Int.fdiv x 1440 ≤ 0 := by
  rw [Int.fdiv_eq_ediv _ (by norm_num : (0 : Int) ≤ 1440)]
  calc x / 1440 ≤ 1439 / 1440 := Int.ediv_le_ediv (by norm_num) (by omega)
    _ = 0 := by decide

theorem overdue_days_nonneg (headers : List String) (now : Int) (row : List Cell) :
    0 ≤ overdue_days headers now row := by
  unfold overdue_days
  cases plannedTime headers row with
  | none => exact le_refl 0
  | some p => exact le_max_right _ _

theorem overdue_days_zero_of_none (headers : List String) (now : Int) (row : List Cell)
    (h : plannedTime headers row = none) : overdue_days headers now row = 0 := by
  unfold overdue_days
  rw [h]

theorem overdue_days_zero_of_recent (headers : List String) (now : Int) (row : List Cell)
    (p : Int) (hp : plannedTime headers row = some p) (h : now - p < 1440) :
    overdue_days headers now row = 0 := by
  unfold overdue_days
  rw [hp]
  exact max_eq_right (fdiv_day_nonpos h)

/-- Retained plus dropped rows account for every input row. -/
theorem filterMap_processRow_count (headers : List String) (now : Int)
    (rows : List (List Cell)) :
    (rows.filterMap (processRow headers now)).length
      + (rows.filter (fun row =>
          (toDatetime (getCell headers row "下单时间")).isNone)).length
      = rows.length := by
  induction rows with
  | nil => rfl
  | cons row rest ih =>
    cases htd : toDatetime (getCell headers row "下单时间") with
    | none =>
      simp [List.filterMap_cons, List.filter_cons,
        processRow_eq_none headers now row htd, htd]
      omega
    | some ot =>
      obtain ⟨r, hr⟩ := processRow_isSome headers now row ot htd
      simp [List.filterMap_cons, List.filter_cons, hr, htd]
      omega

theorem le_foldr_max (l : List Int) : ∀ x ∈ l, x ≤ l.foldr max 0 := by
  induction l with
  | nil =>
    intro x hx
    cases hx
  | cons a t ih =>
    intro x hx
    rcases List.mem_cons.mp hx with rfl | hx2
    · exact le_max_left _ _
    · exact le_trans (ih x hx2) (le_max_right _ _)

theorem foldr_max_le (l : List Int) (M : Int) (h0 : 0 ≤ M) (h : ∀ x ∈ l, x ≤ M) :
    l.foldr max 0 ≤ M := by
  induction l with
  | nil => exact h0
  | cons a t ih =>
    exact max_le (h a (List.mem_cons_self a t))
      (ih (fun x hx => h x (List.mem_cons_of_mem a hx)))

theorem seriesMax_isSome (l : List Int) (h : l ≠ []) : ∃ m, seriesMax l = some m := by
  cases l with
  | nil => exact absurd rfl h
  | cons a t =>
    unfold seriesMax
    cases seriesMax t with
    | none => exact ⟨a, rfl⟩
    | some mt => exact ⟨max a mt, rfl⟩

theorem seriesMax_eq_none (l : List Int) (h : seriesMax l = none) : l = [] := by
  cases l with
  | nil => rfl
  | cons a t =>
    unfold seriesMax at h
    cases hst : seriesMax t with
    | none =>
      rw [hst] at h
      cases h
    | some mt =>
      rw [hst] at h
      cases h

theorem seriesMax_le (l : List Int) (m : Int) (h : seriesMax l = some m) :
    ∀ x ∈ l, x ≤ m := by
  induction l generalizing m with
  | nil => cases h
  | cons a t ih =>
    intro x hx
    unfold seriesMax at h
    cases hst : seriesMax t with
    | none =>
      rw [hst] at h
      have ht : t = [] := seriesMax_eq_none t hst
      rcases List.mem_cons.mp hx with rfl | hx2
      · rw [← Option.some.inj h]
      · rw [ht] at hx2
        cases hx2
    | some mt =>
      rw [hst] at h
      rw [← Option.some.inj h]
      rcases List.mem_cons.mp hx with rfl | hx2
      · exact le_max_left _ _
      · exact le_trans (ih mt hst x hx2) (le_max_right _ _)

theorem seriesMax_mem (l : List Int) (m : Int) (h : seriesMax l = some m) : m ∈ l := by
  induction l generalizing m with
  | nil => cases h
  | cons a t ih =>
    unfold seriesMax at h
    cases hst : seriesMax t with
    | none =>
      rw [hst] at h
      rw [← Option.some.inj h]
      exact List.mem_cons_self a t
    | some mt =>
      rw [hst] at h
      rw [← Option.some.inj h]
      rcases max_choice a mt with hmax | hmax
      · rw [hmax]
        exact List.mem_cons_self a t
      · rw [hmax]
        exact List.mem_cons_of_mem a (ih mt hst)

/-- The code computes `max()` over all rows, guarded by `overdue > 0`; this
equals the specification reading: the maximum over the rows with positive
overdue days, and `0` when there is none. -/
theorem max_overdue_eq (rs : List Record) :
    (display_metrics_cards rs).max_overdue = maxPosOverdue rs := by
  simp only [display_metrics_cards, maxPosOverdue, gt_iff_lt]
  by_cases hpos : 0 < (rs.filter (fun r => decide (0 < r.overdue_days))).length
  · obtain ⟨r0, hr0mem⟩ := List.exists_mem_of_length_pos hpos
    have hr0rs : r0 ∈ rs := (List.mem_filter.mp hr0mem).1
    have hr0pos : 0 < r0.overdue_days := by
      have := (List.mem_filter.mp hr0mem).2
      simpa using this
    obtain ⟨M, hM⟩ := seriesMax_isSome (rs.map Record.overdue_days)
      (by simpa [List.map_eq_nil_iff] using List.ne_nil_of_mem hr0rs)
    have hMpos : 0 < M :=
      lt_of_lt_of_le hr0pos
        (seriesMax_le _ _ hM _ (List.mem_map_of_mem Record.overdue_days hr0rs))
    rw [if_pos hpos, hM]
    simp only [Option.getD_some]
    apply le_antisymm
    · obtain ⟨x, hxrs, hxM⟩ := List.mem_map.mp (seriesMax_mem _ _ hM)
      have hxfil : x ∈ rs.filter (fun r => decide (0 < r.overdue_days)) :=
        List.mem_filter.mpr ⟨hxrs, by simp [hxM, hMpos]⟩
      have hmem : M ∈ (rs.filter (fun r => decide (0 < r.overdue_days))).map
          Record.overdue_days :=
        hxM ▸ List.mem_map_of_mem Record.overdue_days hxfil
      exact le_foldr_max _ _ hmem
    · apply foldr_max_le _ _ (le_of_lt hMpos)
      intro y hy
      obtain ⟨x, hxfil, rfl⟩ := List.mem_map.mp hy
      exact seriesMax_le _ _ hM _
        (List.mem_map_of_mem Record.overdue_days (List.mem_filter.mp hxfil).1)
  · rw [if_neg hpos]
    have hnil : rs.filter (fun r => decide (0 < r.overdue_days)) = [] :=
      List.length_eq_zero.mp (Nat.eq_zero_of_not_pos hpos)
    rw [hnil]
    rfl

/-- Claim C1: for every record retained by `load_data`, the derived 剩余量
equals `max(需求量 - 已发量, 0)`, and in particular is never negative, for
every raw table input. -/
theorem C1_remaining_eq_clamped (now : Int) (t : RawTable) (rs : List Record)
    (h : load_data now t = Except.ok rs) :
    ∀ r ∈ rs,
      r.remaining_quantity = max (r.demand_quantity - r.shipped_quantity) 0
        ∧ 0 ≤ r.remaining_quantity := by
  intro r hr
  obtain ⟨row, hrow, hp⟩ := load_data_mem now t rs r h hr
  obtain ⟨ot, htd, rfl⟩ := processRow_char _ _ _ _ hp
  exact ⟨rfl, le_max_right _ _⟩

/-- Witness for C1 on the concrete table `wtab`. -/
theorem C1_remaining_eq_clamped_witness :
    wrec.remaining_quantity = max (wrec.demand_quantity - wrec.shipped_quantity) 0
      ∧ 0 ≤ wrec.remaining_quantity :=
  C1_remaining_eq_clamped 1000000 wtab [wrec] (by decide) wrec (by decide)

/-- Claim C2, counterexample: 超期天数 is computed from the full wall-clock
`pd.Timestamp.now()`, not from now truncated to the date.  With the planned
arrival at day 0, 23:00 and now at day 1, 01:00, the code stores 0 overdue
days, while the calendar-day-truncation reading of the claim gives 1 (the
planned date is strictly in the past), so the claimed formula is false for
this retained record. -/
theorem C2_counterexample_wallclock :
    load_data 1500 ctab = Except.ok [crec]
      ∧ plannedTime (renameHeaders ctab.headers) (ctab.rows.getD 0 []) = some 1380
      ∧ crec.overdue_days = 0
      ∧ overdue_days_calendar_spec 1500 1380 = 1
      ∧ ¬ crec.overdue_days = overdue_days_calendar_spec 1500 1380 := by
  exact ⟨by decide, by decide, by decide, by decide, by decide⟩

/-- Claim C2 as amended: for every retained record, 超期天数 is non-negative
and equals the floored whole-day wall-clock difference `now - planned`
clamped at zero; it is exactly 0 when the planned-arrival column is absent or
the cell does not parse, and also whenever the planned arrival is less than
one full day before now (in particular for any future planned arrival). -/
theorem C2_amended_overdue_wallclock (now : Int) (t : RawTable) (rs : List Record)
    (h : load_data now t = Except.ok rs) :
    ∀ r ∈ rs,
      0 ≤ r.overdue_days ∧
      ∃ row ∈ t.rows,
        r.overdue_days = overdue_days (renameHeaders t.headers) now row
          ∧ (plannedTime (renameHeaders t.headers) row = none → r.overdue_days = 0)
          ∧ (∀ p, plannedTime (renameHeaders t.headers) row = some p →
              now - p < 1440 → r.overdue_days = 0) := by
  intro r hr
  obtain ⟨row, hrow, hp⟩ := load_data_mem now t rs r h hr
  obtain ⟨ot, htd, rfl⟩ := processRow_char _ _ _ _ hp
  refine ⟨overdue_days_nonneg _ _ _, row, hrow, rfl, ?_, ?_⟩
  · intro hnone
    exact overdue_days_zero_of_none _ now _ hnone
  · intro p hp2 hlt
    exact overdue_days_zero_of_recent _ now _ p hp2 hlt

/-- Witness for the amended C2 on the concrete table `wtab`. -/
theorem C2_amended_overdue_wallclock_witness :
    0 ≤ wrec.overdue_days ∧
    ∃ row ∈ wtab.rows,
      wrec.overdue_days = overdue_days (renameHeaders wtab.headers) 1000000 row
        ∧ (plannedTime (renameHeaders wtab.headers) row = none → wrec.overdue_days = 0)
        ∧ (∀ p, plannedTime (renameHeaders wtab.headers) row = some p →
            1000000 - p < 1440 → wrec.overdue_days = 0) :=
  C2_amended_overdue_wallclock 1000000 wtab [wrec] (by decide) wrec (by decide)

/-- Claim C3, counterexample: a row whose raw demand is the text `-5` is
retained with 需求量 equal to -5, not clamped to 0 (and `load_data` records
no diagnostic count of any kind). -/
theorem C3_counterexample_negative_demand_kept :
    load_data 0 c3tab = Except.ok [c3rec]
      ∧ c3rec.demand_quantity = -5
      ∧ ¬ c3rec.demand_quantity = 0 := by
  exact ⟨by decide, by decide, by decide⟩

/-- Claim C3 as amended: a row with negative raw demand is retained with
需求量 carrying the parsed negative value unchanged (the text `-5` parses to
-5); only 剩余量 is clamped at zero, and no diagnostic is recorded. -/
theorem C3_amended_negative_passthrough (now : Int) (t : RawTable) (rs : List Record)
    (h : load_data now t = Except.ok rs) :
    (∀ r ∈ rs, ∃ row ∈ t.rows,
        r.demand_quantity
            = safe_convert_to_numeric (getCell (renameHeaders t.headers) row "需求量")
          ∧ r.remaining_quantity = max (r.demand_quantity - r.shipped_quantity) 0)
      ∧ safe_convert_to_numeric (Cell.str "-5") = -5 := by
  constructor
  · intro r hr
    obtain ⟨row, hrow, hp⟩ := load_data_mem now t rs r h hr
    obtain ⟨ot, htd, rfl⟩ := processRow_char _ _ _ _ hp
    exact ⟨row, hrow, rfl, rfl⟩
  · decide

/-- Witness for the amended C3 on the concrete table `c3tab`. -/
theorem C3_amended_negative_passthrough_witness :
    (∀ r ∈ [c3rec], ∃ row ∈ c3tab.rows,
        r.demand_quantity
            = safe_convert_to_numeric (getCell (renameHeaders c3tab.headers) row "需求量")
          ∧ r.remaining_quantity = max (r.demand_quantity - r.shipped_quantity) 0)
      ∧ safe_convert_to_numeric (Cell.str "-5") = -5 :=
  C3_amended_negative_passthrough 0 c3tab [c3rec] (by decide)

/-- Claim C4: when a mandatory canonical column is still missing after alias
reconciliation, `load_data` fails as a whole with the schema error naming
exactly the missing columns, and returns no records at all. -/
theorem C4_schema_failure (now : Int) (t : RawTable)
    (h : missing_required (renameHeaders t.headers) ≠ []) :
    load_data now t
      = Except.error (LoadError.schemaError (missing_required (renameHeaders t.headers))) := by
  simp only [load_data]
  cases hm : missing_required (renameHeaders t.headers) with
  | nil => exact absurd hm h
  | cons m ms => rfl

/-- Witness for C4: `c4tab` resolves 项目标段 and 创建时间 through aliases
but still lacks 需求量. -/
theorem C4_schema_failure_witness :
    missing_required (renameHeaders c4tab.headers) ≠ [] ∧
    load_data 0 c4tab
      = Except.error (LoadError.schemaError (missing_required (renameHeaders c4tab.headers))) :=
  ⟨by decide, C4_schema_failure 0 c4tab (by decide)⟩

/-- Claim C5: every row whose 下单时间 fails to parse is dropped entirely, so
the retained count plus the unparseable count equals the input row count, and
every retained record carries the parsed order time of one of its source
rows. -/
theorem C5_unparseable_order_dropped (now : Int) (t : RawTable) (rs : List Record)
    (h : load_data now t = Except.ok rs) :
    (rs.length
        + (t.rows.filter (fun row =>
            (toDatetime (getCell (renameHeaders t.headers) row "下单时间")).isNone)).length
      = t.rows.length)
      ∧ ∀ r ∈ rs, ∃ row ∈ t.rows,
          toDatetime (getCell (renameHeaders t.headers) row "下单时间") = some r.order_time := by
  constructor
  · rw [load_data_ok_elim h]
    exact filterMap_processRow_count (renameHeaders t.headers) now t.rows
  · intro r hr
    obtain ⟨row, hrow, hp⟩ := load_data_mem now t rs r h hr
    obtain ⟨ot, htd, rfl⟩ := processRow_char _ _ _ _ hp
    exact ⟨row, hrow, htd⟩

/-- Witness for C5 on `wtab`: two input rows, one with order time
`not-a-date`, one retained record. -/
theorem C5_unparseable_order_dropped_witness :
    (([wrec] : List Record).length
        + (wtab.rows.filter (fun row =>
            (toDatetime (getCell (renameHeaders wtab.headers) row "下单时间")).isNone)).length
      = wtab.rows.length)
      ∧ ∀ r ∈ [wrec], ∃ row ∈ wtab.rows,
          toDatetime (getCell (renameHeaders wtab.headers) row "下单时间") = some r.order_time :=
  C5_unparseable_order_dropped 1000000 wtab [wrec] (by decide)

/-- Claim C6: the metrics aggregation is total; on the empty record set every
metric is zero, and 最大超期 equals the maximum of 超期天数 over the records
with positive 超期天数, or 0 when no such record exists. -/
theorem C6_metrics_total_function :
    display_metrics_cards []
        = { total := 0, shipped := 0, pending := 0, overdue := 0, max_overdue := 0 }
      ∧ ∀ rs : List Record, (display_metrics_cards rs).max_overdue = maxPosOverdue rs :=
  ⟨by decide, max_overdue_eq⟩

/-- Claim C7, evaluation at the failing input: setting the status back to
Unset (the empty selection, arriving as None or an empty string, or even as
the literal single space the removal branch tests for) does not remove the
overlay entry.  The stripped status can never equal the single space the
removal branch compares against, so an existing entry is overwritten with an
empty-string status and a fresh fingerprint even gains a new empty-status
entry. -/
theorem C7_unset_stores_entry :
    (update_logistics_status c7store "rid1" (some "") "2026-10-02" true true true).store
        = [{ record_id := "rid1", arrival_status := "", update_time := "2026-10-02" }]
      ∧ (update_logistics_status c7store "rid1" (some " ") "2026-10-02" true true true).store
        = [{ record_id := "rid1", arrival_status := "", update_time := "2026-10-02" }]
      ∧ (update_logistics_status [] "rid2" none "2026-10-02" true true true).store
        = [{ record_id := "rid2", arrival_status := "", update_time := "2026-10-02" }] := by
  exact ⟨by decide, by decide, by decide⟩

/-- Claim C8: with a successful save and the original row supplied, the
notification is attempted exactly when the new status is 未到货 and the
stored status was previously absent or different from 未到货 (so re-saving an
already-未到货 record never re-notifies); and the persisted overlay and the
True return value are the same whether or not the notification delivery
succeeds. -/
theorem C8_notification_policy (store : List StatusEntry) (rid : String)
    (ns0 : Option String) (today : String) (notifyOk : Bool) :
    ((update_logistics_status store rid ns0 today true true notifyOk).notified = true
        ↔ (trimStr (ns0.getD "") = "未到货" ∧ lookupStatus store rid ≠ some "未到货"))
      ∧ (update_logistics_status store rid ns0 today true true notifyOk).returned = true
      ∧ (update_logistics_status store rid ns0 today true true notifyOk).store
          = apply_status_write store rid (trimStr (ns0.getD "")) today
      ∧ (update_logistics_status store rid ns0 today true true notifyOk).store
          = (update_logistics_status store rid ns0 today true true true).store := by
  refine ⟨?_, rfl, rfl, rfl⟩
  show (notify_flag store rid (trimStr (ns0.getD "")) && true) = true ↔ _
  rw [Bool.and_true]
  unfold notify_flag
  by_cases hns : trimStr (ns0.getD "") = "未到货"
  · rw [if_pos hns]
    cases hlk : lookupStatus store rid with
    | none => simp [hns, hlk]
    | some s => simp [hns, hlk]
  · rw [if_neg hns]
    simp [hns]

/-- Claim C9, counterexample: in `load_logistics_data`, a blank 项目部 cell
is normalized to the empty string, not to the default label 未指定项目部, so
the single uniform default-label rule the claim asserts for every loading
path does not hold. -/
theorem C9_counterexample_logistics_dept_empty :
    load_logistics_data c9tab = [c9rec]
      ∧ c9rec.department = ""
      ∧ ¬ c9rec.department = "未指定项目部" := by
  exact ⟨by decide, by decide, by decide⟩

/-- Claim C9 as amended: `load_data` and the 物资名称/钢厂 columns of
`load_logistics_data` map blank or nan-like cells to their default labels and
never produce the empty string, but the 项目部 column of
`load_logistics_data` follows the reverse rule: its value is the empty string
exactly for cells whose stripped text is empty, `nan`, `None`, or the default
label 未指定项目部 itself. -/
theorem C9_amended_category_defaults :
    (∀ c : Cell,
        normCat "未指定物资" c ≠ "" ∧ normCat "未指定项目部" c ≠ ""
          ∧ normCat "未指定钢厂" c ≠ "")
      ∧ normCat "未指定物资" Cell.blank = "未指定物资"
      ∧ normCat "未指定项目部" Cell.blank = "未指定项目部"
      ∧ norm_dept_logistics Cell.blank = ""
      ∧ (∀ c : Cell, norm_dept_logistics c = "" ↔
          (trimStr (cellToStr c) = "" ∨ trimStr (cellToStr c) = "nan"
            ∨ trimStr (cellToStr c) = "None" ∨ trimStr (cellToStr c) = "未指定项目部")) := by
  have hne : ∀ d : String, d ≠ "" → ∀ c : Cell, normCat d c ≠ "" := by
    intro d hd c
    simp only [normCat]
    split
    · exact hd
    · intro he
      rename_i hcond
      exact hcond (Or.inl he)
  refine ⟨?_, by decide, by decide, by decide, ?_⟩
  · intro c
    exact ⟨hne _ (by decide) c, hne _ (by decide) c, hne _ (by decide) c⟩
  · intro c
    simp only [norm_dept_logistics]
    by_cases h : trimStr (cellToStr c) = "未指定项目部" ∨ trimStr (cellToStr c) = "nan"
        ∨ trimStr (cellToStr c) = "None"
    · rw [if_pos h]
      constructor
      · intro _
        rcases h with h | h | h
        · exact Or.inr (Or.inr (Or.inr h))
        · exact Or.inr (Or.inl h)
        · exact Or.inr (Or.inr (Or.inl h))
      · intro _
        rfl
    · rw [if_neg h]
      constructor
      · intro he
        exact Or.inl he
      · intro hr
        rcases hr with he | he | he | he
        · exact he
        · exact absurd (Or.inr (Or.inl he)) h
        · exact absurd (Or.inr (Or.inr he)) h
        · exact absurd (Or.inl he) h

/-- Claim C10, evaluation at the failing input: on a table that passes the
required-column check and has at least 18 columns but lacks the 已发量
column, `load_data` does not produce records with shipped 0 — it fails as a
whole, because `df.get("已发量", 0)` returns the scalar 0 and
`safe_convert_to_numeric` then calls `.astype` on it, raising AttributeError,
which the outer handler turns into an error message and an empty frame. -/
theorem C10_shipped_column_missing_crash :
    load_data 0 c10tab = Except.error LoadError.attributeError
      ∧ missing_required (renameHeaders c10tab.headers) = []
      ∧ ¬ "已发量" ∈ renameHeaders c10tab.headers
      ∧ ¬ (renameHeaders c10tab.headers).length < 18 := by
  exact ⟨by decide, by decide, by decide, by decide⟩
